import Mathlib

/-!  Verification of the POS analytics engines: per-store/per-supplier data-quality
health scores, promotion detection and KPIs, and price-index positioning.

The Lean development is a shallow embedding of the three analysis modules
(`data_quality.py`, `promotions.py`, `pricing_index.py`).  A pandas dataframe is
modelled as a `List Row`; nullable columns are `Option`s; numeric columns are
rationals; NaN-producing derived columns are `Option`-valued; a pandas operation
that raises is modelled with `Except`.  Identifier-like columns (`Item_Code`,
`Date Of Sale`) are modelled as natural numbers. -/

namespace POS

/-- A point-of-sale transaction row (one dataframe record). -/
structure Row where
  storeName : String        -- column "Store Name"
  supplier : Option String  -- column "Supplier" (nullable)
  itemCode : Nat            -- column "Item_Code"
  descr : String            -- column "Description"
  subDepartment : String    -- column "Sub-Department"
  sect : String             -- column "Section"
  dateOfSale : Nat          -- column "Date Of Sale"
  quantity : ℚ              -- column "Quantity"
  totalSales : ℚ            -- column "Total Sales"
  rrp : Option ℚ            -- column "RRP" (nullable)
deriving DecidableEq, Inhabited

/-- Derived column `unit_price = Total Sales / Quantity` where `Quantity > 0`,
NaN (here `none`) otherwise; computed identically in `promotions._prepare_data`
and `pricing_index._prepare_data`. -/
def unit_price (r : Row) : Option ℚ :=
  if 0 < r.quantity then some (r.totalSales / r.quantity) else none

/-- `True` iff the row's RRP is non-null and positive. -/
def rrp_valid (r : Row) : Bool :=
  match r.rrp with
  | some v => decide (0 < v)
  | none => false

/-- Derived column `discount_from_rrp_pct` of `pricing_index._prepare_data`:
`(RRP - unit_price) / RRP * 100` where RRP is non-null and positive, NaN
otherwise (a NaN `unit_price` propagates). -/
def discount_from_rrp_pct (r : Row) : Option ℚ :=
  if rrp_valid r then
    (unit_price r).map (fun u => ((r.rrp.getD 0) - u) / (r.rrp.getD 0) * 100)
  else none

/-- `PromotionAnalyzer._prepare_data`: keep rows with positive quantity,
non-null positive RRP and a defined unit price. -/
def promo_prepare (df : List Row) : List Row :=
  df.filter (fun r =>
    decide (0 < r.quantity) && r.rrp.isSome && rrp_valid r && (unit_price r).isSome)

/-- `PricingIndexAnalyzer._prepare_data`: keep rows with positive quantity, a
defined unit price and a non-null supplier (no RRP condition). -/
def pricing_prepare (df : List Row) : List Row :=
  df.filter (fun r =>
    decide (0 < r.quantity) && (unit_price r).isSome && r.supplier.isSome)

/-- `PricingIndexAnalyzer._categorize_positioning`; an undefined (NaN) price
index is modelled as `none`. -/
def categorize_positioning (priceIndex : Option ℚ) : String :=
  match priceIndex with
  | none => "No Competition"
  | some x =>
    if 110 ≤ x then "Premium"
    else if 105 ≤ x then "Slight Premium"
    else if 95 ≤ x then "At Market"
    else if 90 ≤ x then "Slight Discount"
    else "Discount"

/-! ## Data-quality engine -/

/-- The natural dedup key `(Store Name, Item_Code, Date Of Sale)`. -/
def row_key (r : Row) : String × Nat × Nat := (r.storeName, r.itemCode, r.dateOfSale)

/-- Pack a triple into the nested lexicographic order synonym. -/
def lex3 {α β γ : Type} (x : α × β × γ) : α ×ₗ (β ×ₗ γ) :=
  toLex (x.1, toLex (x.2.1, x.2.2))

/-- Lexicographic comparison of triples, the order pandas `groupby` sorts
grouped keys by. -/
def lex3LE {α β γ : Type} [LinearOrder α] [LinearOrder β] [LinearOrder γ]
    (a b : α × β × γ) : Prop :=
  lex3 a ≤ lex3 b

instance {α β γ : Type} [LinearOrder α] [LinearOrder β] [LinearOrder γ] :
    DecidableRel (@lex3LE α β γ _ _ _) :=
  fun a b => inferInstanceAs (Decidable (lex3 a ≤ lex3 b))

theorem lex3_injective {α β γ : Type} : Function.Injective (@lex3 α β γ) := by
  intro a b h
  have h1 : (a.1, toLex (a.2.1, a.2.2)) = (b.1, toLex (b.2.1, b.2.2)) := h
  have h2 : a.1 = b.1 := congrArg Prod.fst h1
  have h3 : toLex ((a.2.1, a.2.2) : β × γ) = toLex (b.2.1, b.2.2) := congrArg Prod.snd h1
  have h4 : ((a.2.1, a.2.2) : β × γ) = (b.2.1, b.2.2) := h3
  have h5 : a.2.1 = b.2.1 := congrArg Prod.fst h4
  have h6 : a.2.2 = b.2.2 := congrArg Prod.snd h4
  exact Prod.ext h2 (Prod.ext h5 h6)

instance {α β γ : Type} [LinearOrder α] [LinearOrder β] [LinearOrder γ] :
    IsTrans (α × β × γ) lex3LE :=
  ⟨fun _ _ _ h1 h2 => le_trans h1 h2⟩

instance {α β γ : Type} [LinearOrder α] [LinearOrder β] [LinearOrder γ] :
    IsTotal (α × β × γ) lex3LE :=
  ⟨fun a b => le_total (lex3 a) (lex3 b)⟩

instance {α β γ : Type} [LinearOrder α] [LinearOrder β] [LinearOrder γ] :
    IsAntisymm (α × β × γ) lex3LE :=
  ⟨fun _ _ h1 h2 => lex3_injective (le_antisymm h1 h2)⟩

/-- `DataQualityChecker.check_duplicates`: rows marked by
`duplicated(subset=key, keep=False)` are those whose key occurs at least twice;
they are grouped by the key (pandas sorts group keys) and quantity/sales are
summed per cluster.  Returns the empty list when there are no duplicates. -/
def check_duplicates (df : List Row) :
    List ((String × Nat × Nat) × ℚ × ℚ) :=
  let dupRows := df.filter
    (fun r => decide (2 ≤ df.countP (fun x => decide (row_key x = row_key r))))
  if dupRows.isEmpty then []
  else
    (List.insertionSort lex3LE ((dupRows.map row_key).dedup)).map
      (fun k =>
        (k,
         ((dupRows.filter (fun r => decide (row_key r = k))).map
            (fun r => r.quantity)).sum,
         ((dupRows.filter (fun r => decide (row_key r = k))).map
            (fun r => r.totalSales)).sum))

/-- The `duplicates_count` field of `generate_summary_report`:
`len(self.check_duplicates())`. -/
def summary_duplicates_count (df : List Row) : Nat :=
  (check_duplicates df).length

/-- The duplicates clause of `_identify_key_issues`: when the duplicates table
is nonempty, append `"Found N duplicate records"` for its length. -/
def key_issue_duplicates (df : List Row) : List String :=
  if 0 < (check_duplicates df).length then
    ["Found " ++ toString (check_duplicates df).length ++ " duplicate records"]
  else []

/-- `df['Store Name'].unique()` (as a set; pandas keeps first occurrences,
`List.dedup` keeps last ones — the membership is identical). -/
def store_list (df : List Row) : List String :=
  (df.map (fun r => r.storeName)).dedup

/-- `df['Supplier'].dropna().unique()` as a set. -/
def supplier_list (df : List Row) : List String :=
  (df.filterMap (fun r => r.supplier)).dedup

/-- The per-store group `self.df[self.df['Store Name'] == store]`. -/
def store_group (df : List Row) (s : String) : List Row :=
  df.filter (fun r => decide (r.storeName = s))

/-- The per-supplier group `self.df[self.df['Supplier'] == supplier]`. -/
def supplier_group (df : List Row) (v : String) : List Row :=
  df.filter (fun r => decide (r.supplier = some v))

/-- Store missing rate: `(missing_supplier + missing_rrp) / (total_records * 2)`. -/
def store_missing_rate (df : List Row) (s : String) : ℚ :=
  (((store_group df s).countP (fun r => r.supplier.isNone) : ℚ) +
    ((store_group df s).countP (fun r => r.rrp.isNone) : ℚ)) /
    ((store_group df s).length * 2)

/-- Store outlier rate: `(neg_qty + neg_sales) / total_records`. -/
def store_outlier_rate (df : List Row) (s : String) : ℚ :=
  (((store_group df s).countP (fun r => decide (r.quantity < 0)) : ℚ) +
    ((store_group df s).countP (fun r => decide (r.totalSales < 0)) : ℚ)) /
    ((store_group df s).length)

/-- `group.duplicated(subset=key_cols).sum()`: the number of rows of the group
beyond the first occurrence of each key, i.e. row count minus distinct-key count. -/
def dup_count (g : List Row) : Nat :=
  g.length - ((g.map row_key).dedup).length

/-- Store duplicate rate: `dup_count / total_records`. -/
def store_dup_rate (df : List Row) (s : String) : ℚ :=
  (dup_count (store_group df s) : ℚ) / ((store_group df s).length)

/-- The weighted health score: each component floored at 0. -/
def score_of (mr orate dr : ℚ) : ℚ :=
  max 0 ((1 - mr) * 30) + max 0 ((1 - orate) * 40) + max 0 ((1 - dr) * 30)

/-- The unrounded health score of a store. -/
def store_score (df : List Row) (s : String) : ℚ :=
  score_of (store_missing_rate df s) (store_outlier_rate df s) (store_dup_rate df s)

/-- The category ladder shared by store and supplier scoring. -/
def categorize_health (x : ℚ) : String :=
  if 90 ≤ x then "Excellent"
  else if 75 ≤ x then "Good"
  else if 60 ≤ x then "Fair"
  else "Poor"

/-- Python's `round(x, 2)`.  (Half-to-even and half-up differ only at exact
multiples of 1/200, which no verified statement touches.) -/
def round2 (q : ℚ) : ℚ := ((round (q * 100) : ℤ) : ℚ) / 100

/-- One record of the health-score tables (field `name` plays the role of
`store` resp. `supplier`; `missing_rate` of `missing_rrp_rate` for suppliers). -/
structure HealthRow where
  name : String
  total_records : Nat
  missing_rate : ℚ
  outlier_rate : ℚ
  duplicate_rate : ℚ
  health_score : ℚ
  category : String
deriving DecidableEq, Inhabited

/-- The per-store record appended by `calculate_store_health_score`. -/
def store_health_row (df : List Row) (s : String) : HealthRow :=
  { name := s
    total_records := (store_group df s).length
    missing_rate := round2 (store_missing_rate df s * 100)
    outlier_rate := round2 (store_outlier_rate df s * 100)
    duplicate_rate := round2 (store_dup_rate df s * 100)
    health_score := round2 (store_score df s)
    category := categorize_health (store_score df s) }

/-- Supplier missing rate: `missing_rrp / total_records`. -/
def supplier_missing_rate (df : List Row) (v : String) : ℚ :=
  ((supplier_group df v).countP (fun r => r.rrp.isNone) : ℚ) /
    ((supplier_group df v).length)

/-- Supplier outlier rate: `(neg_qty + neg_sales + zero_qty_with_sales) / total_records`. -/
def supplier_outlier_rate (df : List Row) (v : String) : ℚ :=
  (((supplier_group df v).countP (fun r => decide (r.quantity < 0)) : ℚ) +
    ((supplier_group df v).countP (fun r => decide (r.totalSales < 0)) : ℚ) +
    ((supplier_group df v).countP
      (fun r => decide (r.quantity = 0) && decide (0 < r.totalSales)) : ℚ)) /
    ((supplier_group df v).length)

/-- Supplier duplicate rate. -/
def supplier_dup_rate (df : List Row) (v : String) : ℚ :=
  (dup_count (supplier_group df v) : ℚ) / ((supplier_group df v).length)

/-- The unrounded health score of a supplier. -/
def supplier_score (df : List Row) (v : String) : ℚ :=
  score_of (supplier_missing_rate df v) (supplier_outlier_rate df v)
    (supplier_dup_rate df v)

/-- The per-supplier record appended by `calculate_supplier_health_score`. -/
def supplier_health_row (df : List Row) (v : String) : HealthRow :=
  { name := v
    total_records := (supplier_group df v).length
    missing_rate := round2 (supplier_missing_rate df v * 100)
    outlier_rate := round2 (supplier_outlier_rate df v * 100)
    duplicate_rate := round2 (supplier_dup_rate df v * 100)
    health_score := round2 (supplier_score df v)
    category := categorize_health (supplier_score df v) }

/-- `DataQualityChecker.calculate_store_health_score`.  When the dataset has no
store at all, the per-store list is empty, `pd.DataFrame([])` has no columns,
and `.sort_values('health_score')` raises `KeyError` — modelled as `Except.error`. -/
def calculate_store_health_score (df : List Row) :
    Except String (List HealthRow) :=
  let rows := (store_list df).map (store_health_row df)
  if rows.isEmpty then Except.error "KeyError: health_score"
  else
    Except.ok (rows.insertionSort (fun a b => b.health_score ≤ a.health_score))

/-- `DataQualityChecker.calculate_supplier_health_score`, same raising edge. -/
def calculate_supplier_health_score (df : List Row) :
    Except String (List HealthRow) :=
  let rows := (supplier_list df).map (supplier_health_row df)
  if rows.isEmpty then Except.error "KeyError: health_score"
  else
    Except.ok (rows.insertionSort (fun a b => b.health_score ≤ a.health_score))

/-! ## Promotion engine -/

/-- `discount_pct = (RRP - unit_price) / RRP * 100` as computed in
`detect_promotions` over the prepared dataset (where `Quantity > 0` and RRP is
non-null, so both `unit_price` and RRP reduce to the plain expressions below). -/
def discount_pct (r : Row) : ℚ :=
  ((r.rrp.getD 0) - r.totalSales / r.quantity) / (r.rrp.getD 0) * 100

/-- `is_promo_day = discount_pct >= discount_threshold * 100`. -/
def is_promo_day (thr : ℚ) (r : Row) : Bool :=
  decide (thr * 100 ≤ discount_pct r)

/-- The `(Store Name, Item_Code)` grouping key of `detect_promotions`. -/
def pair_key (r : Row) : String × Nat := (r.storeName, r.itemCode)

/-- The `promo_days` table of `detect_promotions`: per `(store, item)` pair the
number of its promo-day rows (`groupby.size().unstack(fill_value=0)`; a pair
with no promo-day rows gets count 0, and when no promo day exists at all the
explicit `promo_day_count = 0` branch produces the same zero column). -/
def promo_days_table (thr : ℚ) (l : List Row) :
    List ((String × Nat) × Nat) :=
  ((l.map pair_key).dedup).map
    (fun k => (k, l.countP (fun r => decide (pair_key r = k) && is_promo_day thr r)))

/-- The `merge(..., on=['Store Name', 'Item_Code'], how='left')` lookup of the
pair's promo-day count (a pair absent from the table would yield NaN; `getD 0`
never fires because every row's pair is in the table built from the same data). -/
def lookup_pdc (t : List ((String × Nat) × Nat)) (k : String × Nat) : Nat :=
  ((t.find? (fun e => decide (e.1 = k))).map (fun e => e.2)).getD 0

/-- The merged `promo_day_count` attribute of a row of a prepared dataset. -/
def promo_day_count_of (thr : ℚ) (df : List Row) (r : Row) : Nat :=
  lookup_pdc (promo_days_table thr (promo_prepare df)) (pair_key r)

/-- A row of the dataframe returned by `detect_promotions`. -/
structure PromoRow where
  row : Row
  discount_pct : ℚ
  is_promo_day : Bool
  promo_day_count : Nat
  on_promotion : Bool
deriving DecidableEq, Inhabited

/-- The computed columns `detect_promotions` attaches to one prepared row;
`on_promotion = is_promo_day AND promo_day_count >= min_days`. -/
def mk_promo_row (thr : ℚ) (md : Nat) (df : List Row) (r : Row) : PromoRow :=
  { row := r
    discount_pct := discount_pct r
    is_promo_day := is_promo_day thr r
    promo_day_count := promo_day_count_of thr df r
    on_promotion := is_promo_day thr r && decide (md ≤ promo_day_count_of thr df r) }

/-- `PromotionAnalyzer.detect_promotions` composed with the constructor's
`_prepare_data` (`self.df` is the prepared dataset). -/
def detect_promotions (thr : ℚ) (md : Nat) (df : List Row) : List PromoRow :=
  (promo_prepare df).map (mk_promo_row thr md df)

/-- Whether `needle` occurs as a contiguous run inside `haystack`. -/
def contains_sub (needle haystack : List Char) : Bool :=
  (List.range (haystack.length + 1)).any
    (fun i => ((haystack.drop i).take needle.length) == needle)

/-- `df['Supplier'].str.contains(f, case=False, na=False)`: case-insensitive
substring match, false on a null supplier. -/
def supplier_contains_ci (f : String) (r : Row) : Bool :=
  match r.supplier with
  | none => false
  | some s => contains_sub f.toLower.toList s.toLower.toList

/-- The `df_promo` of `calculate_kpis` after the optional supplier filter
(`None` models the falsy default argument). -/
def df_promo_filtered (thr : ℚ) (md : Nat) (filt : Option String)
    (df : List Row) : List PromoRow :=
  match filt with
  | none => detect_promotions thr md df
  | some f => (detect_promotions thr md df).filter (fun pr => supplier_contains_ci f pr.row)

/-- The `(Item_Code, Description, Supplier)` aggregation key of `calculate_kpis`;
`none` when the supplier is null (pandas `groupby` drops NaN keys). -/
def sku_key (pr : PromoRow) : Option (Nat × String × String) :=
  pr.row.supplier.map (fun s => (pr.row.itemCode, pr.row.descr, s))

/-- One side (baseline rows for `b = false`, promo rows for `b = true`) of one
SKU group. -/
def sku_group (rows : List PromoRow) (k : Nat × String × String) (b : Bool) :
    List PromoRow :=
  rows.filter (fun pr => decide (sku_key pr = some k) && (pr.on_promotion == b))

/-- Whether the pivot has any `(value, b)` column at all: some aggregated group
(non-null supplier) with `on_promotion = b` exists. -/
def has_side (rows : List PromoRow) (b : Bool) : Bool :=
  rows.any (fun pr => (sku_key pr).isSome && (pr.on_promotion == b))

/-- Sum of a rational attribute over a group. -/
def qsum (g : List PromoRow) (f : PromoRow → ℚ) : ℚ := (g.map f).sum

/-- Mean of a rational attribute over a (nonempty) group. -/
def qmean (g : List PromoRow) (f : PromoRow → ℚ) : ℚ :=
  (g.map f).sum / (g.length : ℚ)

/-- `'Store Name': 'nunique'` over a group. -/
def nunique_stores (g : List PromoRow) : Nat :=
  ((g.map (fun pr => pr.row.storeName)).dedup).length

/-- One raw pivot cell: the aggregate of the `(k, b)` group, NaN (`none`) when
that SKU has no rows on that side. -/
def pivot_cell (rows : List PromoRow) (k : Nat × String × String) (b : Bool)
    (f : List PromoRow → ℚ) : Option ℚ :=
  if (sku_group rows k b).isEmpty then none else some (f (sku_group rows k b))

/-- Raw pivot cell `total_quantity_{baseline|promo}`. -/
def tq_cell (rows : List PromoRow) (k : Nat × String × String) (b : Bool) : Option ℚ :=
  pivot_cell rows k b (fun g => qsum g (fun pr => pr.row.quantity))

/-- Raw pivot cell `total_sales_{baseline|promo}`. -/
def ts_cell (rows : List PromoRow) (k : Nat × String × String) (b : Bool) : Option ℚ :=
  pivot_cell rows k b (fun g => qsum g (fun pr => pr.row.totalSales))

/-- Raw pivot cell `avg_unit_price_{baseline|promo}` (unit price of a prepared
row is `Total Sales / Quantity`). -/
def aup_cell (rows : List PromoRow) (k : Nat × String × String) (b : Bool) : Option ℚ :=
  pivot_cell rows k b (fun g => qmean g (fun pr => pr.row.totalSales / pr.row.quantity))

/-- Raw pivot cell `avg_discount_pct_{baseline|promo}`. -/
def adp_cell (rows : List PromoRow) (k : Nat × String × String) (b : Bool) : Option ℚ :=
  pivot_cell rows k b (fun g => qmean g (fun pr => pr.discount_pct))

/-- Raw pivot cell `store_count_{baseline|promo}`. -/
def sc_cell (rows : List PromoRow) (k : Nat × String × String) (b : Bool) : Option ℚ :=
  pivot_cell rows k b (fun g => (nunique_stores g : ℚ))

/-- `total_stores = df_promo['Store Name'].nunique()`. -/
def total_stores_count (rows : List PromoRow) : Nat :=
  ((rows.map (fun pr => pr.row.storeName)).dedup).length

/-- The raw `quantity_uplift_pct` before `fillna`: defined only when both
`total_quantity_baseline` and `total_quantity_promo` columns exist, the
baseline cell is a positive number, and the promo cell is defined (`np.where`
propagates NaN through the formula). -/
def uplift_raw (rows : List PromoRow) (k : Nat × String × String) : Option ℚ :=
  if has_side rows false && has_side rows true then
    match tq_cell rows k false with
    | some b => if 0 < b then (tq_cell rows k true).map (fun p => (p - b) / b * 100) else none
    | none => none
  else none

/-- `promo_coverage_pct` after `fillna(0)`: `store_count_promo / total_stores * 100`
when the promo column exists (NaN cells become 0), literal 0 otherwise. -/
def coverage_val (rows : List PromoRow) (k : Nat × String × String) : ℚ :=
  if has_side rows true then
    ((sc_cell rows k true).map
      (fun s => s / (total_stores_count rows : ℚ) * 100)).getD 0
  else 0

/-- One record of the final `detailed_data` table: the pivoted baseline/promo
columns after the ensure-columns step and `fillna(0)`.  A column a SKU side
never produced anywhere and that the ensure-loop does not create
(`total_sales_*`, `avg_discount_pct_baseline`) stays absent (`none`). -/
structure KpiRow where
  itemCode : Nat
  descr : String
  supplier : String
  total_quantity_baseline : ℚ
  total_quantity_promo : ℚ
  total_sales_baseline : Option ℚ
  total_sales_promo : Option ℚ
  store_count_baseline : ℚ
  store_count_promo : ℚ
  avg_unit_price_baseline : ℚ
  avg_unit_price_promo : ℚ
  avg_discount_pct_baseline : Option ℚ
  avg_discount_pct_promo : ℚ
  quantity_uplift_pct : ℚ
  promo_coverage_pct : ℚ
deriving DecidableEq, Inhabited

/-- Build the detailed-data record of one SKU key. -/
def mk_kpi_row (rows : List PromoRow) (k : Nat × String × String) : KpiRow :=
  { itemCode := k.1
    descr := k.2.1
    supplier := k.2.2
    total_quantity_baseline := if has_side rows false then (tq_cell rows k false).getD 0 else 0
    total_quantity_promo := if has_side rows true then (tq_cell rows k true).getD 0 else 0
    total_sales_baseline := if has_side rows false then some ((ts_cell rows k false).getD 0) else none
    total_sales_promo := if has_side rows true then some ((ts_cell rows k true).getD 0) else none
    store_count_baseline := if has_side rows false then (sc_cell rows k false).getD 0 else 0
    store_count_promo := if has_side rows true then (sc_cell rows k true).getD 0 else 0
    avg_unit_price_baseline := if has_side rows false then (aup_cell rows k false).getD 0 else 0
    avg_unit_price_promo := if has_side rows true then (aup_cell rows k true).getD 0 else 0
    avg_discount_pct_baseline := if has_side rows false then some ((adp_cell rows k false).getD 0) else none
    avg_discount_pct_promo := if has_side rows true then (adp_cell rows k true).getD 0 else 0
    quantity_uplift_pct := (uplift_raw rows k).getD 0
    promo_coverage_pct := coverage_val rows k }

/-- The pivot index: distinct SKU keys of the aggregated rows, sorted
lexicographically as `pivot_table` sorts its index. -/
def kpi_keys (rows : List PromoRow) : List (Nat × String × String) :=
  List.insertionSort lex3LE ((rows.filterMap sku_key).dedup)

/-- The `summary` dictionary of `calculate_kpis`; `avg_promo_coverage` is NaN
(`none`) on an empty pivot, the two other means substitute 0 for NaN. -/
structure KpiSummary where
  total_skus_analyzed : Nat
  skus_with_promos : Nat
  avg_promo_uplift : ℚ
  avg_promo_coverage : Option ℚ
  avg_discount_depth : ℚ
deriving DecidableEq, Inhabited

/-- The dictionary returned by `calculate_kpis`. -/
structure KpiResult where
  summary : KpiSummary
  top_performing_skus : List KpiRow
  detailed_data : List KpiRow
deriving DecidableEq, Inhabited

/-- Assemble the result from the pivot table (`nlargest(10, ...)` is the stable
descending sort by uplift truncated to 10). -/
def kpis_of_pivot (pivot : List KpiRow) : KpiResult :=
  let posUp := (pivot.map (fun kr => kr.quantity_uplift_pct)).filter (fun x => decide (0 < x))
  let posDisc := (pivot.map (fun kr => kr.avg_discount_pct_promo)).filter (fun x => decide (0 < x))
  { summary :=
      { total_skus_analyzed := pivot.length
        skus_with_promos :=
          (pivot.filter (fun kr => decide (0 < kr.promo_coverage_pct))).length
        avg_promo_uplift := if posUp.isEmpty then 0 else posUp.sum / (posUp.length : ℚ)
        avg_promo_coverage :=
          if pivot.isEmpty then none
          else some ((pivot.map (fun kr => kr.promo_coverage_pct)).sum / (pivot.length : ℚ))
        avg_discount_depth := if posDisc.isEmpty then 0 else posDisc.sum / (posDisc.length : ℚ) }
    top_performing_skus :=
      (pivot.insertionSort (fun a b => b.quantity_uplift_pct ≤ a.quantity_uplift_pct)).take 10
    detailed_data := pivot }

/-- `PromotionAnalyzer.calculate_kpis` composed with `_prepare_data`. -/
def calculate_kpis (thr : ℚ) (md : Nat) (filt : Option String)
    (df : List Row) : KpiResult :=
  kpis_of_pivot
    ((kpi_keys (df_promo_filtered thr md filt df)).map
      (mk_kpi_row (df_promo_filtered thr md filt df)))

/-! ## General helper lemmas -/

theorem dedup_length_le_of_subset {α : Type} [DecidableEq α] {l1 l2 : List α}
    (h : l1 ⊆ l2) : l1.dedup.length ≤ l2.dedup.length := by
  rw [← List.card_toFinset, ← List.card_toFinset]
  apply Finset.card_le_card
  intro x hx
  rw [List.mem_toFinset] at hx ⊢
  exact h hx

theorem perm_any {α : Type} (p : α → Bool) {l1 l2 : List α} (h : l1.Perm l2) :
    l1.any p = l2.any p := by
  cases hb : l2.any p
  · rw [List.any_eq_false] at hb ⊢
    intro a ha
    exact hb a (h.mem_iff.mp ha)
  · rw [List.any_eq_true] at hb ⊢
    obtain ⟨a, ha, hp⟩ := hb
    exact ⟨a, h.mem_iff.mpr ha, hp⟩

/-- A concrete valid transaction row used by several witnesses. -/
def base_row : Row :=
  { storeName := "S1"
    supplier := some "ACME"
    itemCode := 1
    descr := "Prod"
    subDepartment := "Dept"
    sect := "Sec"
    dateOfSale := 1
    quantity := 1
    totalSales := 1
    rrp := some 1 }

/-- A row with a null RRP (and positive quantity, non-null supplier). -/
def c1_invalid_rrp_row : Row :=
  { base_row with quantity := 2, totalSales := 5, rrp := none }

/-! ## Claim C1 -/

/-- Claim C1, counterexample: a row whose RRP is null survives
`PricingIndexAnalyzer._prepare_data` untouched, so the price-index prepared
dataset does contain rows with null RRP, contradicting the claim as stated. -/
theorem C1_counterexample :
    c1_invalid_rrp_row ∈ pricing_prepare [c1_invalid_rrp_row] ∧
    c1_invalid_rrp_row.rrp = none := by
  constructor
  · decide
  · rfl

/-- Claim C1, amended: a row lacking `rrp` or with `rrp <= 0` never contributes
a discount percentage and is excluded from the promotion prepared dataset;
(the price-index prepared dataset, by the counterexample, retains such rows). -/
theorem C1_amended_rrp_exclusion (df : List Row) (r s : Row)
    (hr : r ∈ promo_prepare df) (hs : rrp_valid s = false) :
    rrp_valid r = true ∧ discount_from_rrp_pct s = none := by
  constructor
  · have hb := (List.mem_filter.mp hr).2
    simp only [Bool.and_eq_true] at hb
    exact hb.1.2
  · simp [discount_from_rrp_pct, hs]

/-- Claim C1, witness for the amended theorem at concrete rows. -/
theorem C1_witness :
    (base_row ∈ promo_prepare [base_row] ∧ rrp_valid c1_invalid_rrp_row = false) ∧
    (rrp_valid base_row = true ∧ discount_from_rrp_pct c1_invalid_rrp_row = none) :=
  ⟨⟨by decide, by decide⟩,
   C1_amended_rrp_exclusion [base_row] base_row c1_invalid_rrp_row (by decide) (by decide)⟩

/-! ## Claim C2 -/

/-- Claim C2 (code bug): on the well-formed empty dataset,
`calculate_store_health_score` does not return a result — the per-store score
list is empty and sorting the empty frame by `health_score` raises `KeyError`,
modelled by the `Except.error` branch. -/
theorem C2_store_health_raises_on_empty_dataset :
    calculate_store_health_score ([] : List Row) =
      Except.error "KeyError: health_score" := rfl

/-! ## Claim C5 -/

/-- Claim C5: `_categorize_positioning` maps an undefined index to
"No Competition" and uses lower-bound-inclusive bands checked in descending
order; the boundary points 110, 105, 95, 90 land in the upper band and
anything below 90 is "Discount". -/
theorem C5_positioning_bands (x : ℚ) :
    categorize_positioning none = "No Competition" ∧
    categorize_positioning (some 110) = "Premium" ∧
    categorize_positioning (some 105) = "Slight Premium" ∧
    categorize_positioning (some 95) = "At Market" ∧
    categorize_positioning (some 90) = "Slight Discount" ∧
    (110 ≤ x → categorize_positioning (some x) = "Premium") ∧
    (105 ≤ x → x < 110 → categorize_positioning (some x) = "Slight Premium") ∧
    (95 ≤ x → x < 105 → categorize_positioning (some x) = "At Market") ∧
    (90 ≤ x → x < 95 → categorize_positioning (some x) = "Slight Discount") ∧
    (x < 90 → categorize_positioning (some x) = "Discount") := by
  refine ⟨rfl, by decide, by decide, by decide, by decide, ?_, ?_, ?_, ?_, ?_⟩
  · intro h1
    simp only [categorize_positioning]
    rw [if_pos h1]
  · intro h1 h2
    simp only [categorize_positioning]
    rw [if_neg (not_le.mpr h2), if_pos h1]
  · intro h1 h2
    simp only [categorize_positioning]
    rw [if_neg (not_le.mpr (lt_of_lt_of_le h2 (by norm_num))),
      if_neg (not_le.mpr h2), if_pos h1]
  · intro h1 h2
    simp only [categorize_positioning]
    rw [if_neg (not_le.mpr (lt_of_lt_of_le h2 (by norm_num))),
      if_neg (not_le.mpr (lt_of_lt_of_le h2 (by norm_num))),
      if_neg (not_le.mpr h2), if_pos h1]
  · intro h1
    simp only [categorize_positioning]
    rw [if_neg (not_le.mpr (lt_of_lt_of_le h1 (by norm_num))),
      if_neg (not_le.mpr (lt_of_lt_of_le h1 (by norm_num))),
      if_neg (not_le.mpr (lt_of_lt_of_le h1 (by norm_num))),
      if_neg (not_le.mpr h1)]

/-- Claim C5, witness: the band implications applied at interior points. -/
theorem C5_witness :
    categorize_positioning (some 112) = "Premium" ∧
    categorize_positioning (some 107) = "Slight Premium" ∧
    categorize_positioning (some 100) = "At Market" ∧
    categorize_positioning (some 92) = "Slight Discount" ∧
    categorize_positioning (some 80) = "Discount" :=
  ⟨(C5_positioning_bands 112).2.2.2.2.2.1 (by norm_num),
   (C5_positioning_bands 107).2.2.2.2.2.2.1 (by norm_num) (by norm_num),
   (C5_positioning_bands 100).2.2.2.2.2.2.2.1 (by norm_num) (by norm_num),
   (C5_positioning_bands 92).2.2.2.2.2.2.2.2.1 (by norm_num) (by norm_num),
   (C5_positioning_bands 80).2.2.2.2.2.2.2.2.2 (by norm_num)⟩

/-! ## Claim C9 -/

/-- Claim C9: `duplicates_count` is the number of distinct natural keys carried
by more than one row (duplicate clusters), not the number of duplicated rows,
and the `key_issues` entry "Found N duplicate records" reports that same
cluster count. -/
theorem C9_duplicates_count_is_cluster_count (df : List Row) :
    summary_duplicates_count df =
      ((df.map row_key).dedup).countP
        (fun k => decide (2 ≤ (df.map row_key).countP (fun k2 => decide (k2 = k)))) ∧
    key_issue_duplicates df =
      (if 0 < summary_duplicates_count df then
        ["Found " ++ toString (summary_duplicates_count df) ++ " duplicate records"]
      else []) := by
  refine ⟨?_, rfl⟩
  have hcnt : ∀ r : Row, df.countP (fun x => decide (row_key x = row_key r)) =
      (df.map row_key).countP (fun k2 => decide (k2 = row_key r)) := by
    intro r
    rw [List.countP_map]
    rfl
  have hdup : df.filter
        (fun r => decide (2 ≤ df.countP (fun x => decide (row_key x = row_key r)))) =
      df.filter (fun r =>
        decide (2 ≤ (df.map row_key).countP (fun k2 => decide (k2 = row_key r)))) := by
    apply List.filter_congr
    intro r _
    rw [hcnt r]
  have hkeys : (df.map row_key).filter
        (fun k => decide (2 ≤ (df.map row_key).countP (fun k2 => decide (k2 = k)))) =
      (df.filter (fun r =>
        decide (2 ≤ (df.map row_key).countP (fun k2 => decide (k2 = row_key r))))).map
        row_key := by
    rw [List.filter_map]
    rfl
  simp only [summary_duplicates_count, check_duplicates]
  rw [hdup]
  by_cases he : (df.filter (fun r =>
      decide (2 ≤ (df.map row_key).countP (fun k2 => decide (k2 = row_key r))))).isEmpty = true
  · rw [if_pos he]
    simp only [List.length_nil]
    symm
    rw [List.countP_eq_zero]
    intro k hk hq2
    rw [List.mem_dedup, List.mem_map] at hk
    obtain ⟨r, hr, hrk⟩ := hk
    have hmem : r ∈ df.filter (fun r =>
        decide (2 ≤ (df.map row_key).countP (fun k2 => decide (k2 = row_key r)))) := by
      apply List.mem_filter.mpr
      refine ⟨hr, ?_⟩
      rw [hrk]
      exact hq2
    rw [List.isEmpty_iff] at he
    rw [he] at hmem
    exact absurd hmem (List.not_mem_nil r)
  · rw [if_neg he]
    rw [List.length_map,
      (List.perm_insertionSort lex3LE _).length_eq, ← hkeys]
    have hperm : (((df.map row_key).filter
          (fun k => decide (2 ≤ (df.map row_key).countP (fun k2 => decide (k2 = k))))).dedup).Perm
        (((df.map row_key).dedup).filter
          (fun k => decide (2 ≤ (df.map row_key).countP (fun k2 => decide (k2 = k))))) := by
      apply (List.perm_ext_iff_of_nodup (List.nodup_dedup _)
        ((List.nodup_dedup _).filter _)).mpr
      intro a
      simp only [List.mem_dedup, List.mem_filter]
    rw [hperm.length_eq, ← List.countP_eq_length_filter]

/-! ## Claim C4 -/

theorem score_of_nonneg (mr orate dr : ℚ) : 0 ≤ score_of mr orate dr := by
  unfold score_of
  have h1 := le_max_left (0:ℚ) ((1 - mr) * 30)
  have h2 := le_max_left (0:ℚ) ((1 - orate) * 40)
  have h3 := le_max_left (0:ℚ) ((1 - dr) * 30)
  linarith

theorem score_of_le_100 {mr orate dr : ℚ} (h1 : 0 ≤ mr) (h2 : 0 ≤ orate)
    (h3 : 0 ≤ dr) : score_of mr orate dr ≤ 100 := by
  unfold score_of
  have g1 : max 0 ((1 - mr) * 30) ≤ 30 := by
    apply max_le (by norm_num)
    nlinarith
  have g2 : max 0 ((1 - orate) * 40) ≤ 40 := by
    apply max_le (by norm_num)
    nlinarith
  have g3 : max 0 ((1 - dr) * 30) ≤ 30 := by
    apply max_le (by norm_num)
    nlinarith
  linarith

theorem store_missing_rate_nonneg (df : List Row) (s : String) :
    0 ≤ store_missing_rate df s := by
  unfold store_missing_rate
  positivity

theorem store_outlier_rate_nonneg (df : List Row) (s : String) :
    0 ≤ store_outlier_rate df s := by
  unfold store_outlier_rate
  positivity

theorem store_dup_rate_nonneg (df : List Row) (s : String) :
    0 ≤ store_dup_rate df s := by
  unfold store_dup_rate
  positivity

theorem supplier_missing_rate_nonneg (df : List Row) (v : String) :
    0 ≤ supplier_missing_rate df v := by
  unfold supplier_missing_rate
  positivity

theorem supplier_outlier_rate_nonneg (df : List Row) (v : String) :
    0 ≤ supplier_outlier_rate df v := by
  unfold supplier_outlier_rate
  positivity

theorem supplier_dup_rate_nonneg (df : List Row) (v : String) :
    0 ≤ supplier_dup_rate df v := by
  unfold supplier_dup_rate
  positivity

/-- The conclusion of claim C4 for one store `s` and one supplier `v`. -/
def C4_conclusion (df : List Row) (s v : String) : Prop :=
  (store_score df s =
    score_of (store_missing_rate df s) (store_outlier_rate df s) (store_dup_rate df s)) ∧
  0 ≤ store_score df s ∧ store_score df s ≤ 100 ∧
  (store_health_row df s).category = categorize_health (store_score df s) ∧
  (supplier_score df v =
    score_of (supplier_missing_rate df v) (supplier_outlier_rate df v)
      (supplier_dup_rate df v)) ∧
  0 ≤ supplier_score df v ∧ supplier_score df v ≤ 100 ∧
  (supplier_health_row df v).category = categorize_health (supplier_score df v) ∧
  categorize_health 90 = "Excellent" ∧ categorize_health (8999/100) = "Good"

/-- Claim C4: for every store and supplier group, the unrounded health score is
the floored-term weighted formula over the three defect rates, lies in
`[0, 100]`, and the category ladder is lower-bound-inclusive (exactly 90 is
"Excellent", 89.99 is "Good"). -/
theorem C4_health_score_formula_and_bounds (df : List Row) (s v : String)
    (hs : s ∈ store_list df) (hv : v ∈ supplier_list df) :
    C4_conclusion df s v := by
  refine ⟨rfl, score_of_nonneg .., ?_, rfl, rfl, score_of_nonneg .., ?_, rfl,
    by norm_num [categorize_health], by norm_num [categorize_health]⟩
  · exact score_of_le_100 (store_missing_rate_nonneg df s)
      (store_outlier_rate_nonneg df s) (store_dup_rate_nonneg df s)
  · exact score_of_le_100 (supplier_missing_rate_nonneg df v)
      (supplier_outlier_rate_nonneg df v) (supplier_dup_rate_nonneg df v)

/-- Claim C4, witness at a one-row dataset. -/
theorem C4_witness :
    ("S1" ∈ store_list [base_row] ∧ "ACME" ∈ supplier_list [base_row]) ∧
    C4_conclusion [base_row] "S1" "ACME" :=
  ⟨⟨by decide, by decide⟩,
   C4_health_score_formula_and_bounds [base_row] "S1" "ACME" (by decide) (by decide)⟩

/-! ## Claim C10 -/

theorem countP_range_lt (a : Nat) :
    ∀ n, (List.range n).countP (fun i => decide (i < a)) = min n a := by
  intro n
  induction n with
  | zero => simp
  | succ n ih =>
    rw [List.range_succ, List.countP_append, ih]
    simp only [List.countP_cons, List.countP_nil]
    by_cases h : n < a <;> simp [h] <;> omega

theorem countP_range_band (a b : Nat) :
    ∀ n, (List.range n).countP (fun i => decide (a ≤ i) && decide (i < b)) =
      min n b - min n a := by
  intro n
  induction n with
  | zero => simp
  | succ n ih =>
    rw [List.range_succ, List.countP_append, ih]
    simp only [List.countP_cons, List.countP_nil]
    by_cases h1 : a ≤ n <;> by_cases h2 : n < b <;> simp [h1, h2] <;> omega

/-- Row `i` of a 2000-row store whose exact health score is 89.9975: rows
0, 1, 2 miss the supplier, rows 3..501 have a negative quantity, all natural
keys are distinct. -/
def c10_store_row (i : Nat) : Row :=
  { storeName := "S"
    supplier := if i < 3 then none else some "V"
    itemCode := i
    descr := "P"
    subDepartment := "D"
    sect := "E"
    dateOfSale := 0
    quantity := if 3 ≤ i ∧ i < 502 then -1 else 1
    totalSales := 1
    rrp := some 1 }

/-- The boundary dataset for claim C10 (2000 rows of the store above). -/
def c10_df : List Row := (List.range 2000).map c10_store_row

theorem c10_df_def : c10_df = (List.range 2000).map c10_store_row := rfl

theorem c10_keys_nodup (n : Nat) :
    (((List.range n).map c10_store_row).map row_key).Nodup := by
  rw [List.map_map]
  have hfun : (row_key ∘ c10_store_row) = fun i => ("S", i, 0) := by
    funext i
    rfl
  rw [hfun]
  apply List.Nodup.map
  · intro x y h
    exact congrArg (fun t => t.2.1) h
  · exact List.nodup_range ..

theorem c10_len (n : Nat) : ((List.range n).map c10_store_row).length = n := by
  rw [List.length_map, List.length_range]

theorem c10_dup_count (n : Nat) :
    dup_count ((List.range n).map c10_store_row) = 0 := by
  unfold dup_count
  rw [List.dedup_eq_self.mpr (c10_keys_nodup n)]
  simp only [List.length_map]
  exact Nat.sub_self _

theorem c10_group_eq (n : Nat) :
    store_group ((List.range n).map c10_store_row) "S" =
      (List.range n).map c10_store_row := by
  apply List.filter_eq_self.mpr
  intro r hr
  rw [List.mem_map] at hr
  obtain ⟨i, _, rfl⟩ := hr
  rfl

theorem c10_missing_supplier (n : Nat) :
    ((List.range n).map c10_store_row).countP (fun r => r.supplier.isNone) =
      min n 3 := by
  rw [List.countP_map]
  have hfun : ((fun r : Row => r.supplier.isNone) ∘ c10_store_row) =
      fun i => decide (i < 3) := by
    funext i
    by_cases h : i < 3 <;> simp [c10_store_row, Function.comp, h]
  rw [hfun, countP_range_lt]

theorem c10_missing_rrp (n : Nat) :
    ((List.range n).map c10_store_row).countP (fun r => r.rrp.isNone) = 0 := by
  rw [List.countP_map]
  apply List.countP_eq_zero.mpr
  intro i _
  simp [c10_store_row, Function.comp]

theorem c10_neg_quantity (n : Nat) :
    ((List.range n).map c10_store_row).countP (fun r => decide (r.quantity < 0)) =
      min n 502 - min n 3 := by
  rw [List.countP_map]
  have hfun : ((fun r : Row => decide (r.quantity < 0)) ∘ c10_store_row) =
      fun i => decide (3 ≤ i) && decide (i < 502) := by
    funext i
    by_cases h1 : 3 ≤ i <;> by_cases h2 : i < 502 <;>
      simp [c10_store_row, Function.comp, h1, h2]
  rw [hfun, countP_range_band]

theorem c10_neg_sales (n : Nat) :
    ((List.range n).map c10_store_row).countP (fun r => decide (r.totalSales < 0)) = 0 := by
  rw [List.countP_map]
  apply List.countP_eq_zero.mpr
  intro i _
  simp [c10_store_row, Function.comp]

theorem c10_score : store_score c10_df "S" = 35999/400 := by
  unfold store_score
  have h1 : store_missing_rate c10_df "S" = 3/4000 := by
    unfold store_missing_rate
    simp only [c10_df_def, c10_group_eq, c10_missing_supplier, c10_missing_rrp,
      c10_len]
    norm_num [min_def]
  have h2 : store_outlier_rate c10_df "S" = 499/2000 := by
    unfold store_outlier_rate
    simp only [c10_df_def, c10_group_eq, c10_neg_quantity, c10_neg_sales, c10_len]
    norm_num [min_def]
  have h3 : store_dup_rate c10_df "S" = 0 := by
    unfold store_dup_rate
    simp only [c10_df_def, c10_group_eq, c10_dup_count, c10_len]
    norm_num
  rw [h1, h2, h3]
  unfold score_of
  rw [max_eq_right (by norm_num : (0:ℚ) ≤ (1 - 3/4000) * 30),
    max_eq_right (by norm_num : (0:ℚ) ≤ (1 - 499/2000) * 40),
    max_eq_right (by norm_num : (0:ℚ) ≤ (1 - 0) * 30)]
  norm_num

/-- The structural half of claim C10 for one store `s` and one supplier `v`:
the reported `health_score` is the rounded score, the category comes from the
unrounded score. -/
def C10_conclusion (df : List Row) (s v : String) : Prop :=
  (store_health_row df s).health_score = round2 (store_score df s) ∧
  (store_health_row df s).category = categorize_health (store_score df s) ∧
  (supplier_health_row df v).health_score = round2 (supplier_score df v) ∧
  (supplier_health_row df v).category = categorize_health (supplier_score df v)

/-- Claim C10: categories are derived from the unrounded score while the
reported `health_score` is rounded to two decimals; on the 2000-row boundary
dataset (exact score 89.9975) the reported row shows `health_score = 90` with
category "Good". -/
theorem C10_rounded_score_vs_category (df : List Row) (s v : String)
    (hs : s ∈ store_list df) (hv : v ∈ supplier_list df) :
    C10_conclusion df s v ∧
    (store_health_row c10_df "S").health_score = 90 ∧
    (store_health_row c10_df "S").category = "Good" := by
  refine ⟨⟨rfl, rfl, rfl, rfl⟩, ?_, ?_⟩
  · show round2 (store_score c10_df "S") = 90
    rw [c10_score]
    unfold round2
    norm_num [round_eq]
  · show categorize_health (store_score c10_df "S") = "Good"
    rw [c10_score]
    unfold categorize_health
    rw [if_neg (by norm_num), if_pos (by norm_num)]

/-- Claim C10, witness: hypotheses discharged at a one-row dataset. -/
theorem C10_witness :
    ("S1" ∈ store_list [base_row] ∧ "ACME" ∈ supplier_list [base_row]) ∧
    (C10_conclusion [base_row] "S1" "ACME" ∧
      (store_health_row c10_df "S").health_score = 90 ∧
      (store_health_row c10_df "S").category = "Good") :=
  ⟨⟨by decide, by decide⟩,
   C10_rounded_score_vs_category [base_row] "S1" "ACME" (by decide) (by decide)⟩

/-! ## Claim C3 -/

theorem find_key_table {β : Type} (f : String × Nat → β) (k : String × Nat) :
    ∀ l : List (String × Nat), k ∈ l →
      (l.map (fun k2 => (k2, f k2))).find? (fun e => decide (e.1 = k)) =
        some (k, f k) := by
  intro l
  induction l with
  | nil => intro h; exact absurd h (List.not_mem_nil k)
  | cons a tl ih =>
    intro hk
    by_cases ha : a = k
    · subst ha
      simp only [List.map_cons]
      rw [List.find?_cons_of_pos _ (by simp)]
    · simp only [List.map_cons]
      rw [List.find?_cons_of_neg _ (by simp [ha])]
      apply ih
      rcases List.mem_cons.mp hk with h1 | h1
      · exact absurd h1.symm ha
      · exact h1

theorem lookup_pdc_mem (thr : ℚ) (l : List Row) (k : String × Nat)
    (hk : k ∈ (l.map pair_key).dedup) :
    lookup_pdc (promo_days_table thr l) k =
      l.countP (fun r => decide (pair_key r = k) && is_promo_day thr r) := by
  unfold lookup_pdc promo_days_table
  rw [find_key_table
    (fun k2 => l.countP (fun r => decide (pair_key r = k2) && is_promo_day thr r))
    k _ hk]
  rfl

/-- The conclusion of claim C3 for one detected row. -/
def promo_row_conclusion (thr : ℚ) (md : Nat) (df : List Row) (pr : PromoRow) : Prop :=
  (pr.is_promo_day = true ↔ thr * 100 ≤ pr.discount_pct) ∧
  pr.promo_day_count =
    (promo_prepare df).countP
      (fun x => decide (pair_key x = pair_key pr.row) && is_promo_day thr x) ∧
  (pr.on_promotion = true ↔ (pr.is_promo_day = true ∧ md ≤ pr.promo_day_count))

/-- Claim C3: every retained row is a discount-day iff its discount reaches
`discount_threshold * 100`; its merged `promo_day_count` equals the total
discount-day count of its `(store, item)` pair over the whole prepared
dataset; and `on_promotion` holds iff the row is a discount-day whose pair
count reaches `min_days`. -/
theorem C3_detect_promotions_classification (thr : ℚ) (md : Nat) (df : List Row)
    (pr : PromoRow) (h : pr ∈ detect_promotions thr md df) :
    promo_row_conclusion thr md df pr := by
  unfold detect_promotions at h
  rw [List.mem_map] at h
  obtain ⟨r, hr, rfl⟩ := h
  unfold promo_row_conclusion
  simp only [mk_promo_row]
  refine ⟨?_, ?_, ?_⟩
  · unfold is_promo_day
    exact decide_eq_true_iff
  · unfold promo_day_count_of
    exact lookup_pdc_mem thr (promo_prepare df) (pair_key r)
      (List.mem_dedup.mpr (List.mem_map_of_mem pair_key hr))
  · simp only [Bool.and_eq_true, decide_eq_true_eq]

/-- Two rows of one `(store, item)` pair, both 20% below RRP. -/
def c3_row1 : Row := { base_row with totalSales := 8, rrp := some 10 }

/-- Second sale day of the same pair. -/
def c3_row2 : Row := { c3_row1 with dateOfSale := 2 }

/-- Claim C3, witness at a two-row dataset whose pair has two discount-days. -/
theorem C3_witness :
    mk_promo_row (1/10) 2 [c3_row1, c3_row2] c3_row1 ∈
      detect_promotions (1/10) 2 [c3_row1, c3_row2] ∧
    promo_row_conclusion (1/10) 2 [c3_row1, c3_row2]
      (mk_promo_row (1/10) 2 [c3_row1, c3_row2] c3_row1) := by
  have hprep : promo_prepare [c3_row1, c3_row2] = [c3_row1, c3_row2] := by decide
  have hmem : mk_promo_row (1/10) 2 [c3_row1, c3_row2] c3_row1 ∈
      detect_promotions (1/10) 2 [c3_row1, c3_row2] := by
    unfold detect_promotions
    rw [hprep]
    exact List.mem_map_of_mem _ (by simp)
  exact ⟨hmem, C3_detect_promotions_classification (1/10) 2 [c3_row1, c3_row2] _ hmem⟩

/-! ## Claim C6 -/

/-- The conclusion of claim C6 for one detailed-data record. -/
def kpi_row_conclusion (kr : KpiRow) : Prop :=
  (kr.total_quantity_baseline = 0 → kr.quantity_uplift_pct = 0) ∧
  0 ≤ kr.promo_coverage_pct ∧ kr.promo_coverage_pct ≤ 100

theorem sku_group_isEmpty_of_cell (rows : List PromoRow) (k : Nat × String × String)
    (b : Bool) (f : List PromoRow → ℚ) {s : ℚ}
    (h : pivot_cell rows k b f = some s) :
    (sku_group rows k b).isEmpty = false ∧ s = f (sku_group rows k b) := by
  unfold pivot_cell at h
  by_cases hg : (sku_group rows k b).isEmpty
  · rw [if_pos hg] at h
    exact absurd h (by simp)
  · rw [if_neg hg] at h
    have hfalse : (sku_group rows k b).isEmpty = false := by
      rw [Bool.eq_false_iff]
      exact hg
    exact ⟨hfalse, (Option.some_injective ℚ h).symm⟩

/-- Claim C6: in the returned detailed data, a SKU whose baseline total
quantity is 0 (in particular one lacking a baseline side) reports
`quantity_uplift_pct = 0`, and every SKU's `promo_coverage_pct` lies in
`[0, 100]`. -/
theorem C6_uplift_zero_and_coverage_bounds (thr : ℚ) (md : Nat)
    (filt : Option String) (df : List Row) (kr : KpiRow)
    (h : kr ∈ (calculate_kpis thr md filt df).detailed_data) :
    kpi_row_conclusion kr := by
  have hmem : kr ∈ (kpi_keys (df_promo_filtered thr md filt df)).map
      (mk_kpi_row (df_promo_filtered thr md filt df)) := h
  rw [List.mem_map] at hmem
  obtain ⟨k, hk, rfl⟩ := hmem
  refine ⟨?_, ?_, ?_⟩
  · intro h0
    show (uplift_raw (df_promo_filtered thr md filt df) k).getD 0 = 0
    unfold uplift_raw
    by_cases hB : has_side (df_promo_filtered thr md filt df) false
    · by_cases hP : has_side (df_promo_filtered thr md filt df) true
      · simp only [hB, hP, Bool.and_self, if_true]
        cases htq : tq_cell (df_promo_filtered thr md filt df) k false with
        | none => simp
        | some b =>
          have hb : b = 0 := by
            have hfield : (mk_kpi_row (df_promo_filtered thr md filt df) k).total_quantity_baseline = b := by
              simp [mk_kpi_row, hB, htq]
            rw [h0] at hfield
            exact hfield.symm
          rw [hb]
          simp
      · simp [hB, hP]
    · simp [hB]
  · show 0 ≤ coverage_val (df_promo_filtered thr md filt df) k
    unfold coverage_val
    by_cases hP : has_side (df_promo_filtered thr md filt df) true
    · rw [if_pos hP]
      cases hsc : sc_cell (df_promo_filtered thr md filt df) k true with
      | none => simp
      | some s =>
        obtain ⟨-, hs⟩ := sku_group_isEmpty_of_cell _ k true _ hsc
        simp only [Option.map, Option.getD_some]
        rw [hs]
        positivity
    · rw [if_neg hP]
  · show coverage_val (df_promo_filtered thr md filt df) k ≤ 100
    unfold coverage_val
    by_cases hP : has_side (df_promo_filtered thr md filt df) true
    · rw [if_pos hP]
      cases hsc : sc_cell (df_promo_filtered thr md filt df) k true with
      | none => simp
      | some s =>
        obtain ⟨hne, hs⟩ := sku_group_isEmpty_of_cell _ k true _ hsc
        simp only [Option.map, Option.getD_some]
        have hsub : nunique_stores (sku_group (df_promo_filtered thr md filt df) k true) ≤
            total_stores_count (df_promo_filtered thr md filt df) := by
          unfold nunique_stores total_stores_count
          apply dedup_length_le_of_subset
          apply List.map_subset
          intro x hx
          exact (List.mem_filter.mp hx).1
        have hT : 0 < total_stores_count (df_promo_filtered thr md filt df) := by
          have hne2 : sku_group (df_promo_filtered thr md filt df) k true ≠ [] := by
            intro hnil
            rw [hnil] at hne
            simp at hne
          obtain ⟨pr, hpr⟩ := List.exists_mem_of_ne_nil _ hne2
          unfold total_stores_count
          apply List.length_pos_of_mem (a := pr.row.storeName)
          rw [List.mem_dedup]
          exact List.mem_map_of_mem _ ((List.mem_filter.mp hpr).1)
        rw [hs]
        rw [div_mul_eq_mul_div, div_le_iff₀ (by exact_mod_cast hT)]
        have hle : (nunique_stores (sku_group (df_promo_filtered thr md filt df) k true) : ℚ) ≤
            (total_stores_count (df_promo_filtered thr md filt df) : ℚ) := by
          exact_mod_cast hsub
        nlinarith
    · rw [if_neg hP]
      norm_num

/-- Claim C6, witness at a one-row dataset (its single SKU has no promo side,
so the baseline quantity is positive but coverage is 0 and uplift is 0). -/
theorem C6_witness :
    mk_kpi_row (df_promo_filtered (1/10) 2 none [base_row]) (1, "Prod", "ACME") ∈
      (calculate_kpis (1/10) 2 none [base_row]).detailed_data ∧
    kpi_row_conclusion
      (mk_kpi_row (df_promo_filtered (1/10) 2 none [base_row]) (1, "Prod", "ACME")) := by
  have hmem : mk_kpi_row (df_promo_filtered (1/10) 2 none [base_row]) (1, "Prod", "ACME") ∈
      (calculate_kpis (1/10) 2 none [base_row]).detailed_data := by
    show _ ∈ (kpi_keys (df_promo_filtered (1/10) 2 none [base_row])).map
      (mk_kpi_row (df_promo_filtered (1/10) 2 none [base_row]))
    apply List.mem_map_of_mem
    decide
  exact ⟨hmem, C6_uplift_zero_and_coverage_bounds (1/10) 2 none [base_row] _ hmem⟩

/-! ## Claim C7 -/

theorem lookup_pdc_none (thr : ℚ) (l : List Row) (k : String × Nat)
    (hk : k ∉ l.map pair_key) : lookup_pdc (promo_days_table thr l) k = 0 := by
  unfold lookup_pdc promo_days_table
  have hfind : (((l.map pair_key).dedup).map
      (fun k2 => (k2, l.countP (fun r => decide (pair_key r = k2) && is_promo_day thr r)))).find?
      (fun e => decide (e.1 = k)) = none := by
    rw [List.find?_eq_none]
    intro e he
    rw [List.mem_map] at he
    obtain ⟨k2, hk2, rfl⟩ := he
    simp only [decide_eq_true_eq]
    intro hek
    apply hk
    rw [← hek]
    exact List.mem_dedup.mp hk2
  rw [hfind]
  rfl

theorem lookup_pdc_perm (thr : ℚ) {l1 l2 : List Row} (h : l1.Perm l2)
    (k : String × Nat) :
    lookup_pdc (promo_days_table thr l1) k = lookup_pdc (promo_days_table thr l2) k := by
  by_cases hk : k ∈ l1.map pair_key
  · have hk2 : k ∈ l2.map pair_key := (h.map pair_key).mem_iff.mp hk
    rw [lookup_pdc_mem thr l1 k (List.mem_dedup.mpr hk),
      lookup_pdc_mem thr l2 k (List.mem_dedup.mpr hk2)]
    exact h.countP_eq _
  · have hk2 : k ∉ l2.map pair_key := fun hc => hk ((h.map pair_key).mem_iff.mpr hc)
    rw [lookup_pdc_none thr l1 k hk, lookup_pdc_none thr l2 k hk2]

theorem mk_promo_row_perm (thr : ℚ) (md : Nat) {df1 df2 : List Row}
    (h : df1.Perm df2) (r : Row) :
    mk_promo_row thr md df1 r = mk_promo_row thr md df2 r := by
  have hc : promo_day_count_of thr df1 r = promo_day_count_of thr df2 r := by
    unfold promo_day_count_of
    exact lookup_pdc_perm thr (h.filter _) (pair_key r)
  unfold mk_promo_row
  rw [hc]

theorem detect_promotions_perm (thr : ℚ) (md : Nat) {df1 df2 : List Row}
    (h : df1.Perm df2) :
    (detect_promotions thr md df1).Perm (detect_promotions thr md df2) := by
  unfold detect_promotions
  have h1 : (promo_prepare df1).map (mk_promo_row thr md df1) =
      (promo_prepare df1).map (mk_promo_row thr md df2) :=
    List.map_congr_left (fun r _ => mk_promo_row_perm thr md h r)
  rw [h1]
  exact (h.filter _).map _

theorem df_promo_filtered_perm (thr : ℚ) (md : Nat) (filt : Option String)
    {df1 df2 : List Row} (h : df1.Perm df2) :
    (df_promo_filtered thr md filt df1).Perm (df_promo_filtered thr md filt df2) := by
  unfold df_promo_filtered
  cases filt with
  | none => exact detect_promotions_perm thr md h
  | some f => exact (detect_promotions_perm thr md h).filter _

theorem qsum_perm {g1 g2 : List PromoRow} (h : g1.Perm g2) (f : PromoRow → ℚ) :
    qsum g1 f = qsum g2 f :=
  (h.map f).sum_eq

theorem qmean_perm {g1 g2 : List PromoRow} (h : g1.Perm g2) (f : PromoRow → ℚ) :
    qmean g1 f = qmean g2 f := by
  unfold qmean
  rw [(h.map f).sum_eq, h.length_eq]

theorem nunique_stores_perm {g1 g2 : List PromoRow} (h : g1.Perm g2) :
    nunique_stores g1 = nunique_stores g2 :=
  ((h.map _).dedup).length_eq

theorem total_stores_count_perm {rows1 rows2 : List PromoRow} (h : rows1.Perm rows2) :
    total_stores_count rows1 = total_stores_count rows2 :=
  ((h.map _).dedup).length_eq

theorem has_side_perm {rows1 rows2 : List PromoRow} (h : rows1.Perm rows2) (b : Bool) :
    has_side rows1 b = has_side rows2 b :=
  perm_any _ h

theorem pivot_cell_perm {rows1 rows2 : List PromoRow} (h : rows1.Perm rows2)
    (k : Nat × String × String) (b : Bool) (f : List PromoRow → ℚ)
    (hf : ∀ g1 g2 : List PromoRow, g1.Perm g2 → f g1 = f g2) :
    pivot_cell rows1 k b f = pivot_cell rows2 k b f := by
  have hg : (sku_group rows1 k b).Perm (sku_group rows2 k b) := h.filter _
  unfold pivot_cell
  have hbool : ∀ l : List PromoRow, l.isEmpty = (l.length == 0) := by
    intro l
    cases l <;> rfl
  have he : (sku_group rows1 k b).isEmpty = (sku_group rows2 k b).isEmpty := by
    rw [hbool, hbool, hg.length_eq]
  rw [he]
  by_cases hc : (sku_group rows2 k b).isEmpty
  · rw [if_pos hc, if_pos hc]
  · rw [if_neg hc, if_neg hc, hf _ _ hg]

theorem tq_cell_perm {rows1 rows2 : List PromoRow} (h : rows1.Perm rows2)
    (k : Nat × String × String) (b : Bool) : tq_cell rows1 k b = tq_cell rows2 k b :=
  pivot_cell_perm h k b _ (fun _ _ hg => qsum_perm hg _)

theorem ts_cell_perm {rows1 rows2 : List PromoRow} (h : rows1.Perm rows2)
    (k : Nat × String × String) (b : Bool) : ts_cell rows1 k b = ts_cell rows2 k b :=
  pivot_cell_perm h k b _ (fun _ _ hg => qsum_perm hg _)

theorem aup_cell_perm {rows1 rows2 : List PromoRow} (h : rows1.Perm rows2)
    (k : Nat × String × String) (b : Bool) : aup_cell rows1 k b = aup_cell rows2 k b :=
  pivot_cell_perm h k b _ (fun _ _ hg => qmean_perm hg _)

theorem adp_cell_perm {rows1 rows2 : List PromoRow} (h : rows1.Perm rows2)
    (k : Nat × String × String) (b : Bool) : adp_cell rows1 k b = adp_cell rows2 k b :=
  pivot_cell_perm h k b _ (fun _ _ hg => qmean_perm hg _)

theorem sc_cell_perm {rows1 rows2 : List PromoRow} (h : rows1.Perm rows2)
    (k : Nat × String × String) (b : Bool) : sc_cell rows1 k b = sc_cell rows2 k b :=
  pivot_cell_perm h k b _ (fun _ _ hg => congrArg Nat.cast (nunique_stores_perm hg))

theorem uplift_raw_perm {rows1 rows2 : List PromoRow} (h : rows1.Perm rows2)
    (k : Nat × String × String) : uplift_raw rows1 k = uplift_raw rows2 k := by
  unfold uplift_raw
  rw [has_side_perm h false, has_side_perm h true, tq_cell_perm h k false,
    tq_cell_perm h k true]

theorem coverage_val_perm {rows1 rows2 : List PromoRow} (h : rows1.Perm rows2)
    (k : Nat × String × String) : coverage_val rows1 k = coverage_val rows2 k := by
  unfold coverage_val
  rw [has_side_perm h true, sc_cell_perm h k true, total_stores_count_perm h]

theorem mk_kpi_row_perm {rows1 rows2 : List PromoRow} (h : rows1.Perm rows2)
    (k : Nat × String × String) : mk_kpi_row rows1 k = mk_kpi_row rows2 k := by
  unfold mk_kpi_row
  rw [has_side_perm h false, has_side_perm h true, tq_cell_perm h k false,
    tq_cell_perm h k true, ts_cell_perm h k false, ts_cell_perm h k true,
    sc_cell_perm h k false, sc_cell_perm h k true, aup_cell_perm h k false,
    aup_cell_perm h k true, adp_cell_perm h k false, adp_cell_perm h k true,
    uplift_raw_perm h k, coverage_val_perm h k]

theorem kpi_keys_perm_eq {rows1 rows2 : List PromoRow} (h : rows1.Perm rows2) :
    kpi_keys rows1 = kpi_keys rows2 := by
  unfold kpi_keys
  have h1 : ((rows1.filterMap sku_key).dedup).Perm ((rows2.filterMap sku_key).dedup) :=
    (h.filterMap _).dedup
  exact List.eq_of_perm_of_sorted
    ((List.perm_insertionSort _ _).trans (h1.trans (List.perm_insertionSort _ _).symm))
    (List.sorted_insertionSort _ _) (List.sorted_insertionSort _ _)

/-- Claim C7: permuting the input rows leaves every row's merged promo-day
count and promotion flags unchanged, permutes the `detect_promotions` output
accordingly, and leaves the entire `calculate_kpis` result (summary, top
performers, detailed data) identical. -/
theorem C7_order_independence (thr : ℚ) (md : Nat) (filt : Option String)
    (df1 df2 : List Row) (r : Row) (h : df1.Perm df2) :
    promo_day_count_of thr df1 r = promo_day_count_of thr df2 r ∧
    mk_promo_row thr md df1 r = mk_promo_row thr md df2 r ∧
    (detect_promotions thr md df1).Perm (detect_promotions thr md df2) ∧
    calculate_kpis thr md filt df1 = calculate_kpis thr md filt df2 := by
  have hrows : (df_promo_filtered thr md filt df1).Perm (df_promo_filtered thr md filt df2) :=
    df_promo_filtered_perm thr md filt h
  refine ⟨?_, mk_promo_row_perm thr md h r, detect_promotions_perm thr md h, ?_⟩
  · unfold promo_day_count_of
    exact lookup_pdc_perm thr (h.filter _) (pair_key r)
  · unfold calculate_kpis
    apply congrArg kpis_of_pivot
    rw [kpi_keys_perm_eq hrows]
    exact List.map_congr_left (fun k _ => mk_kpi_row_perm hrows k)

/-- Claim C7, witness: a concrete two-row swap. -/
theorem C7_witness :
    ([c3_row1, c3_row2].Perm [c3_row2, c3_row1]) ∧
    (promo_day_count_of (1/10) [c3_row1, c3_row2] c3_row1 =
        promo_day_count_of (1/10) [c3_row2, c3_row1] c3_row1 ∧
      mk_promo_row (1/10) 2 [c3_row1, c3_row2] c3_row1 =
        mk_promo_row (1/10) 2 [c3_row2, c3_row1] c3_row1 ∧
      (detect_promotions (1/10) 2 [c3_row1, c3_row2]).Perm
        (detect_promotions (1/10) 2 [c3_row2, c3_row1]) ∧
      calculate_kpis (1/10) 2 none [c3_row1, c3_row2] =
        calculate_kpis (1/10) 2 none [c3_row2, c3_row1]) :=
  ⟨List.Perm.swap c3_row2 c3_row1 [],
   C7_order_independence (1/10) 2 none [c3_row1, c3_row2] [c3_row2, c3_row1]
     c3_row1 (List.Perm.swap c3_row2 c3_row1 [])⟩

end POS
